import Mathlib

/-!
# Verification of the nighres/cbstools-python wrapper layer

Shallow embedding of the Python wrapper functions
`flash_t2s_fitting`, `lcpca_denoising`, `mp2rage_t1_mapping` and
`levelset_fusion` (files `src/nighres/intensity/flash_t2s_fitting.py`,
`src/nighres/intensity/lcpca_denoising.py`,
`src/nighres/intensity/mp2rage_t1_mapping.py`,
`src/nighres/shape/levelset_fusion.py`).

Each Python function is an adapter around an external native (Java)
algorithms library: it resolves output file paths, optionally
short-circuits on previously saved results, pushes flattened voxel
arrays across a foreign-object bridge, invokes the native `execute`,
reshapes the flat results back into volumes and optionally saves them.

The embedding makes every observable effect of a call explicit in a
`Trace`: the messages printed, the `os.path.isfile` probes performed,
the sequence of calls made into the native layer, the volumes written
to disk, the output directories created, and the call's outcome
(returned dictionary, bare `return`, or propagated exception).
The native algorithm itself is opaque: each embedding is parametrised
by an oracle record holding whatever flat arrays the native getters
would return, and whether `execute` raises.
-/

namespace Nighres

/-- A voxel sample: either NaN or a (real-valued, modelled rational)
number.  This is the value space of the numpy arrays the wrappers
move around; the wrappers themselves never do arithmetic on samples
beyond min/max, so rationals are a faithful carrier. -/
inductive Val where
  | nan : Val
  | num : ℚ → Val
deriving DecidableEq

/-- The numeric content of a sample, `none` for NaN. -/
def Val.numOf : Val → Option ℚ
  | Val.nan => none
  | Val.num q => some q

/-- The `np.nanmin` of a flat list of samples: minimum of the non-NaN
entries, NaN when there are none. -/
def nanminL (l : List Val) : Val :=
  match l.filterMap Val.numOf with
  | [] => Val.nan
  | q :: qs => Val.num (qs.foldl min q)

/-- The `np.nanmax` of a flat list of samples: maximum of the non-NaN
entries, NaN when there are none. -/
def nanmaxL (l : List Val) : Val :=
  match l.filterMap Val.numOf with
  | [] => Val.nan
  | q :: qs => Val.num (qs.foldl max q)

/-- A 3D voxel array (`data` of a loaded volume): three dimensions and
a total indexing function.  Only indices below the dimensions are
meaningful. -/
structure Arr3 where
  nx : ℕ
  ny : ℕ
  nz : ℕ
  val : ℕ → ℕ → ℕ → Val

/-- Column-major flattening, `data.flatten('F')`: the Fortran-order (Fortran-order) flattening, the
first index varying fastest.  Linear cell `i` holds voxel
`(i % nx, (i / nx) % ny, i / (nx*ny))`. -/
def flattenF (a : Arr3) : List Val :=
  (List.range (a.nx * a.ny * a.nz)).map
    (fun i => a.val (i % a.nx) (i / a.nx % a.ny) (i / (a.nx * a.ny)))

/-- Column-major reshaping, `np.reshape(flat, (nx,ny,nz), 'F')`: rebuild a 3D array from a flat
list using the same column-major convention; out-of-range cells read
as NaN. -/
def reshapeF (nx ny nz : ℕ) (l : List Val) : Arr3 :=
  { nx := nx, ny := ny, nz := nz,
    val := fun x y z => (l.getD (x + nx * (y + ny * z)) Val.nan) }

/-- The `np.nanmin` of a 3D array (taken over its in-bounds voxels). -/
def nanminA (a : Arr3) : Val := nanminL (flattenF a)

/-- The `np.nanmax` of a 3D array (taken over its in-bounds voxels). -/
def nanmaxA (a : Arr3) : Val := nanmaxL (flattenF a)

/-- An affine voxel-to-world transform, a passed-through 4x4 matrix
(modelled as rows of rationals; the wrappers never inspect it). -/
abbrev Affine := List (List ℚ)

/-- An image header: voxel sizes (`get_zooms()`) and the display
calibration range `cal_min` / `cal_max`. -/
structure Header where
  zoomX : ℚ
  zoomY : ℚ
  zoomZ : ℚ
  cal_min : Val
  cal_max : Val

/-- A volumetric image object (nibabel image): voxel data, affine and
header. -/
structure Niimg where
  data : Arr3
  affine : Affine
  header : Header

/-- Image construction, `nb.Nifti1Image(data, affine, header)`: nibabel builds the
image from a *copy* of the header passed in (later mutations of the
caller's header object do not touch this image), so in the pure
embedding the image simply captures the current header value. -/
def niftiImage (data : Arr3) (affine : Affine) (header : Header) : Niimg :=
  { data := data, affine := affine, header := header }

/-- A placeholder image (never the result of a modelled run; used only
to totalise lookups). -/
def defaultImg : Niimg :=
  { data := { nx := 0, ny := 0, nz := 0, val := fun _ _ _ => Val.nan },
    affine := [],
    header := { zoomX := 1, zoomY := 1, zoomZ := 1,
                cal_min := Val.nan, cal_max := Val.nan } }

/-- The filesystem visible to a call: a map from paths to saved
volumes. -/
abbrev FS := List (String × Niimg)

/-- The `os.path.isfile` probe. -/
def isfile (fs : FS) (p : String) : Bool :=
  fs.any (fun e => e.1 == p)

/-- Modelled from the spec: `load_volume` (nighres.io, not under
`src/`; per the spec, volumetric image I/O is handled by an external
imaging library).  Loading a path returns the volume saved there. -/
def load_volume (fs : FS) (p : String) : Niimg :=
  ((fs.find? (fun e => e.1 == p)).map Prod.snd).getD defaultImg

/-- The `os.path.isfile` probes made by an `A and B and ...` cache
check: paths are probed left to right, stopping after the first
missing one (Python short-circuit). -/
def probe (fs : FS) : List String → List String
  | [] => []
  | f :: rest => if isfile fs f then f :: probe fs rest else [f]

/-- The `os.path.join` of a directory and a file name. -/
def pathJoin (d f : String) : String := d ++ "/" ++ f

/-- Modelled from the spec: `_fname_4saving` (nighres.utils, not under
`src/`).  Per the spec, derived filenames are
`<base-name>_<suffix>.<ext>` where base-name is an explicit override
(`file_name`) or derived from the input file's name. -/
def fname4saving (file_name : Option String) (rootfile : String)
    (suffix : String) : String :=
  (file_name.getD rootfile) ++ "_" ++ suffix ++ ".nii"

/-- Modelled from the spec: `_output_dir_4saving` (nighres.utils, not
under `src/`).  Resolves the output directory (explicit override or
derived from the input file) and creates it if absent. -/
def outputDir4saving (output_dir : Option String) (rootfile : String) : String :=
  output_dir.getD (rootfile ++ "_dir")

/-- Modelled from the spec: `_check_topology_lut_dir` (nighres.utils,
not under `src/`).  Returns the given topology LUT directory or the
packaged default. -/
def checkTopologyLutDir (d : Option String) : String :=
  d.getD "TOPOLOGY_LUT_DIR"

/-- A voxel sample as marshalled by `cbstools.JArray('float')`: the
value is cast to 32-bit floating point (a Java `float`) when handed
across the bridge. -/
structure JFloat where
  val : Val
deriving DecidableEq

/-- Marshalling `JArray('float')(xs)`: box a flat sequence as a Java 32-bit float
array, casting every element to 32-bit floating point. -/
def jarrayFloat (xs : List Val) : List JFloat := xs.map JFloat.mk

/-- One call across the foreign-object bridge into the native layer. -/
inductive NativeCall where
  | initVM (initialheap maxheap : String)
  | newInstance (cls : String)
  | setParamI (name : String) (v : ℕ)
  | setParamZ (name : String) (v : ℤ)
  | setParamQ (name : String) (v : ℚ)
  | setParamB (name : String) (v : Bool)
  | setParamS (name : String) (v : String)
  | setScalarAt (name : String) (idx : ℕ) (v : ℚ)
  | setDimensions (x y z : ℕ)
  | setResolutions (x y z : ℚ)
  | setArrayAt (name : String) (idx : ℕ) (arr : List JFloat)
  | setArray (name : String) (arr : List JFloat)
  | execute
deriving DecidableEq

/-- A Python exception as seen by the caller. -/
inductive PyExc where
  | native : String → PyExc
  | nameError : String → PyExc
deriving DecidableEq

/-- How a wrapper call ends: with a returned result dictionary, with a
bare `return` (the caller receives `None`), or with a propagated
exception. -/
inductive Outcome (α : Type) where
  | ok : α → Outcome α
  | noneRet : Outcome α
  | raised : PyExc → Outcome α

/-- The full observable behaviour of one wrapper call. -/
structure Trace (α : Type) where
  prints : List String
  statted : List String
  nativeCalls : List NativeCall
  writes : List (String × Niimg)
  dirsCreated : List String
  outcome : Outcome α

/-! ## flash_t2s_fitting (src/nighres/intensity/flash_t2s_fitting.py) -/

/-- The native `IntensityFlashT2sFitting` instance, seen as an oracle:
whether `execute()` raises (and with what exception), and the flat
arrays its getters return. -/
structure NativeT2s where
  execFails : Option String
  t2sImage : List Val
  r2sImage : List Val
  s0Image : List Val
  residualImage : List Val

/-- The dictionary returned by `flash_t2s_fitting`, keys
`t2s`, `r2s`, `s0`, `residuals`. -/
structure FlashResult where
  t2s : Niimg
  r2s : Niimg
  s0 : Niimg
  residuals : Niimg

/-- The output path `flash_t2s_fitting` derives for a given suffix:
`os.path.join(output_dir, _fname_4saving(file_name, image_list[0],
suffix))`. -/
def flashOutFile (image_list : List String)
    (output_dir file_name : Option String) (suffix : String) : String :=
  pathJoin (outputDir4saving output_dir (image_list.headD ""))
    (fname4saving file_name (image_list.headD "") suffix)

/-- Shallow embedding of `flash_t2s_fitting(image_list, te_list,
save_data, overwrite, output_dir, file_name)`.  Inputs are file paths
resolved against `fs`; `native` is the opaque algorithm instance. -/
def flash_t2s_fitting (fs : FS) (native : NativeT2s)
    (image_list : List String) (te_list : List ℚ)
    (save_data overwrite : Bool)
    (output_dir file_name : Option String) : Trace FlashResult :=
  let root := image_list.headD ""
  let t2s_file := flashOutFile image_list output_dir file_name "qt2fit-t2s"
  let r2s_file := flashOutFile image_list output_dir file_name "qt2fit-r2s"
  let s0_file := flashOutFile image_list output_dir file_name "qt2fit-s0"
  let err_file := flashOutFile image_list output_dir file_name "qt2fit-err"
  -- effects of the `if save_data:` block before the cache decision
  let dirs := if save_data then [outputDir4saving output_dir root] else []
  let stats := if save_data then
      (if overwrite then [] else probe fs [t2s_file, r2s_file, s0_file, err_file])
    else []
  if save_data && !overwrite && isfile fs t2s_file && isfile fs r2s_file
      && isfile fs s0_file && isfile fs err_file then
    -- skip computation (use existing results)
    { prints := ["\nT2* Fitting", "skip computation (use existing results)"],
      statted := stats, nativeCalls := [], writes := [], dirsCreated := dirs,
      outcome := Outcome.ok
        { t2s := load_volume fs t2s_file, r2s := load_volume fs r2s_file,
          s0 := load_volume fs s0_file, residuals := load_volume fs err_file } }
  else
    let img := load_volume fs root
    let data := img.data
    let affine := img.affine
    let header := img.header
    let calls : List NativeCall :=
      [NativeCall.initVM "12000m" "12000m",
       NativeCall.newInstance "IntensityFlashT2sFitting",
       NativeCall.setParamI "NumberOfEchoes" image_list.length,
       NativeCall.setDimensions data.nx data.ny data.nz,
       NativeCall.setResolutions header.zoomX header.zoomY header.zoomZ]
      ++ image_list.enum.map (fun p =>
           NativeCall.setArrayAt "EchoImage" p.1
             (jarrayFloat (flattenF (load_volume fs p.2).data)))
      ++ te_list.enum.map (fun p => NativeCall.setScalarAt "EchoTime" p.1 p.2)
      ++ [NativeCall.execute]
    match native.execFails with
    | some e =>
      -- `except: print(...); print(sys.exc_info()[0]); raise`
      { prints := ["\nT2* Fitting",
                   "\n The underlying Java code did not execute cleanly: ", e],
        statted := stats, nativeCalls := calls, writes := [], dirsCreated := dirs,
        outcome := Outcome.raised (PyExc.native e) }
    | none =>
      let t2s_data := reshapeF data.nx data.ny data.nz native.t2sImage
      let r2s_data := reshapeF data.nx data.ny data.nz native.r2sImage
      let s0_data := reshapeF data.nx data.ny data.nz native.s0Image
      let err_data := reshapeF data.nx data.ny data.nz native.residualImage
      let h1 := { header with cal_min := nanminA t2s_data, cal_max := nanmaxA t2s_data }
      let t2s := niftiImage t2s_data affine h1
      let h2 := { h1 with cal_min := nanminA r2s_data, cal_max := nanmaxA r2s_data }
      let r2s := niftiImage r2s_data affine h2
      let h3 := { h2 with cal_min := nanminA s0_data, cal_max := nanmaxA s0_data }
      let s0 := niftiImage s0_data affine h3
      let h4 := { h3 with cal_min := nanminA err_data, cal_max := nanmaxA err_data }
      let err := niftiImage err_data affine h4
      let writes := if save_data then
          [(t2s_file, t2s), (r2s_file, r2s), (s0_file, s0), (err_file, err)]
        else []
      { prints := ["\nT2* Fitting"],
        statted := stats, nativeCalls := calls, writes := writes, dirsCreated := dirs,
        outcome := Outcome.ok { t2s := t2s, r2s := r2s, s0 := s0, residuals := err } }

/-! ## lcpca_denoising (src/nighres/intensity/lcpca_denoising.py) -/

/-- The native `IntensityComplexPCADenoising` instance, seen as an
oracle. -/
structure NativeLcpca where
  execFails : Option String
  denoisedMagnitudeAt : ℕ → List Val
  denoisedPhaseAt : ℕ → List Val
  localDimensionImage : List Val
  noiseFitImage : List Val

/-- The dictionary returned by `lcpca_denoising`, keys `denoised`
(a list), `dimensions`, `residuals`. -/
structure LcpcaResult where
  denoised : List Niimg
  dimensions : Niimg
  residuals : Niimg

/-- The denoised-output paths `lcpca_denoising` derives: one
`lcpca-den` file per magnitude image (rootfile the image itself),
then one per phase image when a phase list is given. -/
def lcpcaDenFiles (image_list : List String) (phase_list : Option (List String))
    (output_dir file_name : Option String) : List String :=
  let odir := outputDir4saving output_dir (image_list.headD "")
  image_list.map (fun im => pathJoin odir (fname4saving file_name im "lcpca-den"))
  ++ (phase_list.getD []).map
       (fun im => pathJoin odir (fname4saving file_name im "lcpca-den"))

/-- The `lcpca-dim` / `lcpca-res` output paths of `lcpca_denoising`
(rootfile the first magnitude image). -/
def lcpcaOutFile (image_list : List String)
    (output_dir file_name : Option String) (suffix : String) : String :=
  pathJoin (outputDir4saving output_dir (image_list.headD ""))
    (fname4saving file_name (image_list.headD "") suffix)

/-- Shallow embedding of `lcpca_denoising(image_list, phase_list,
ngb_size, stdev_cutoff, min_dimension, max_dimension, save_data,
overwrite, output_dir, file_name)`. -/
def lcpca_denoising (fs : FS) (native : NativeLcpca)
    (image_list : List String) (phase_list : Option (List String))
    (ngb_size : ℕ) (stdev_cutoff : ℚ) (min_dimension : ℕ) (max_dimension : ℤ)
    (save_data overwrite : Bool)
    (output_dir file_name : Option String) : Trace LcpcaResult :=
  let root := image_list.headD ""
  let den_files := lcpcaDenFiles image_list phase_list output_dir file_name
  let dim_file := lcpcaOutFile image_list output_dir file_name "lcpca-dim"
  let err_file := lcpcaOutFile image_list output_dir file_name "lcpca-res"
  let dirs := if save_data then [outputDir4saving output_dir root] else []
  -- `isfile` probes: `overwrite is False and isfile(dim) and isfile(err)`
  -- short-circuits; inside, the `for den_file in den_files` loop probes
  -- every denoised path (no break).
  let stats := if save_data then
      (if overwrite then [] else
        probe fs [dim_file, err_file]
        ++ (if isfile fs dim_file && isfile fs err_file then den_files else []))
    else []
  if save_data && !overwrite && isfile fs dim_file && isfile fs err_file
      && den_files.all (isfile fs) then
    -- skip computation (use existing results)
    { prints := ["\nLCPCA denoising", "skip computation (use existing results)"],
      statted := stats, nativeCalls := [], writes := [], dirsCreated := dirs,
      outcome := Outcome.ok
        { denoised := den_files.map (load_volume fs),
          dimensions := load_volume fs dim_file,
          residuals := load_volume fs err_file } }
  else
    -- initVM, instance creation and setImageNumber happen before the
    -- magnitude/phase length check (source lines 121-134)
    let preCalls : List NativeCall :=
      [NativeCall.initVM "12000m" "12000m",
       NativeCall.newInstance "IntensityComplexPCADenoising",
       NativeCall.setParamI "ImageNumber" image_list.length]
    if phase_list.isSome && ((phase_list.getD []).length != image_list.length) then
      { prints := ["\nLCPCA denoising",
                   "\nmismatch of magnitude and phase images: abort"],
        statted := stats, nativeCalls := preCalls, writes := [], dirsCreated := dirs,
        outcome := Outcome.noneRet }
    else
      let img := load_volume fs root
      let data := img.data
      let affine := img.affine
      let header := img.header
      let calls : List NativeCall :=
        preCalls
        ++ [NativeCall.setDimensions data.nx data.ny data.nz,
            NativeCall.setResolutions header.zoomX header.zoomY header.zoomZ]
        ++ image_list.enum.map (fun p =>
             NativeCall.setArrayAt "MagnitudeImage" p.1
               (jarrayFloat (flattenF (load_volume fs p.2).data)))
        ++ (phase_list.getD []).enum.map (fun p =>
             NativeCall.setArrayAt "PhaseImage" p.1
               (jarrayFloat (flattenF (load_volume fs p.2).data)))
        ++ [NativeCall.setParamI "PatchSize" ngb_size,
            NativeCall.setParamQ "StdevCutoff" stdev_cutoff,
            NativeCall.setParamI "MinimumDimension" min_dimension,
            NativeCall.setParamZ "MaximumDimension" max_dimension,
            NativeCall.execute]
      match native.execFails with
      | some e =>
        { prints := ["\nLCPCA denoising",
                     "\n The underlying Java code did not execute cleanly: ", e],
          statted := stats, nativeCalls := calls, writes := [], dirsCreated := dirs,
          outcome := Outcome.raised (PyExc.native e) }
      | none =>
        let denMagData := fun idx =>
          reshapeF data.nx data.ny data.nz (native.denoisedMagnitudeAt idx)
        let denMag := fun idx => niftiImage (denMagData idx) affine
          { header with cal_min := nanminA (denMagData idx),
                        cal_max := nanmaxA (denMagData idx) }
        let denPhsData := fun idx =>
          reshapeF data.nx data.ny data.nz (native.denoisedPhaseAt idx)
        let denPhs := fun idx => niftiImage (denPhsData idx) affine
          { header with cal_min := nanminA (denPhsData idx),
                        cal_max := nanmaxA (denPhsData idx) }
        let dim_data := reshapeF data.nx data.ny data.nz native.localDimensionImage
        let dim := niftiImage dim_data affine
          { header with cal_min := nanminA dim_data, cal_max := nanmaxA dim_data }
        let err_data := reshapeF data.nx data.ny data.nz native.noiseFitImage
        let err := niftiImage err_data affine
          { header with cal_min := nanminA err_data, cal_max := nanmaxA err_data }
        let denoised_list :=
          (List.range image_list.length).map denMag
          ++ (List.range (phase_list.getD []).length).map denPhs
        let writes := if save_data then
            (List.range image_list.length).map
              (fun idx => (den_files.getD idx "", denMag idx))
            ++ (List.range (phase_list.getD []).length).map
                 (fun idx => (den_files.getD (idx + image_list.length) "", denPhs idx))
            ++ [(dim_file, dim), (err_file, err)]
          else []
        { prints := ["\nLCPCA denoising"],
          statted := stats, nativeCalls := calls, writes := writes, dirsCreated := dirs,
          outcome := Outcome.ok
            { denoised := denoised_list, dimensions := dim, residuals := err } }

/-! ## mp2rage_t1_mapping (src/nighres/intensity/mp2rage_t1_mapping.py) -/

/-- The native `IntensityMp2rageT1Fitting` instance, seen as an
oracle. -/
structure NativeMp2rage where
  execFails : Option String
  t1Image : List Val
  r1Image : List Val
  uniImage : List Val

/-- The dictionary returned by `mp2rage_t1_mapping`, keys `t1`, `r1`,
`uni`. -/
structure Mp2rageResult where
  t1 : Niimg
  r1 : Niimg
  uni : Niimg

/-- The output path `mp2rage_t1_mapping` derives for a given suffix
(rootfile the first-inversion magnitude image). -/
def mp2rageOutFile (first_inversion : List String)
    (output_dir file_name : Option String) (suffix : String) : String :=
  pathJoin (outputDir4saving output_dir (first_inversion.headD ""))
    (fname4saving file_name (first_inversion.headD "") suffix)

/-- Shallow embedding of `mp2rage_t1_mapping(first_inversion,
second_inversion, inversion_times, flip_angles, inversion_TR,
excitation_TR, N_excitations, efficiency, correct_B1, B1_map,
save_data, overwrite, output_dir, file_name)`. -/
def mp2rage_t1_mapping (fs : FS) (native : NativeMp2rage)
    (first_inversion second_inversion : List String)
    (inversion_times flip_angles : List ℚ) (inversion_TR : ℚ)
    (excitation_TR : List ℚ) (N_excitations : ℕ) (efficiency : ℚ)
    (correct_B1 : Bool) (B1_map : Option String)
    (save_data overwrite : Bool)
    (output_dir file_name : Option String) : Trace Mp2rageResult :=
  let root := first_inversion.headD ""
  let t1_file := mp2rageOutFile first_inversion output_dir file_name "qt1map-t1"
  let r1_file := mp2rageOutFile first_inversion output_dir file_name "qt1map-r1"
  let uni_file := mp2rageOutFile first_inversion output_dir file_name "qt1map-uni"
  let dirs := if save_data then [outputDir4saving output_dir root] else []
  let stats := if save_data then
      (if overwrite then [] else probe fs [t1_file, r1_file, uni_file])
    else []
  if save_data && !overwrite && isfile fs t1_file && isfile fs r1_file
      && isfile fs uni_file then
    { prints := ["\nT1 Mapping", "skip computation (use existing results)"],
      statted := stats, nativeCalls := [], writes := [], dirsCreated := dirs,
      outcome := Outcome.ok
        { t1 := load_volume fs t1_file, r1 := load_volume fs r1_file,
          uni := load_volume fs uni_file } }
  else
    let img := load_volume fs root
    let data1 := img.data
    let affine := img.affine
    let header := img.header
    let calls : List NativeCall :=
      [NativeCall.initVM "12000m" "12000m",
       NativeCall.newInstance "IntensityMp2rageT1Fitting",
       NativeCall.setParamQ "FirstInversionTime" (inversion_times.getD 0 0),
       NativeCall.setParamQ "SecondInversionTime" (inversion_times.getD 1 0),
       NativeCall.setParamQ "FirstFlipAngle" (flip_angles.getD 0 0),
       NativeCall.setParamQ "SecondFlipAngle" (flip_angles.getD 1 0),
       NativeCall.setParamQ "InversionRepetitionTime" inversion_TR,
       NativeCall.setParamQ "FirstExcitationRepetitionTime" (excitation_TR.getD 0 0),
       NativeCall.setParamQ "SecondExcitationRepetitionTime" (excitation_TR.getD 1 0),
       NativeCall.setParamI "NumberExcitations" N_excitations,
       NativeCall.setParamQ "InversionEfficiency" efficiency,
       NativeCall.setParamB "CorrectB1inhomogeneities" correct_B1,
       NativeCall.setDimensions data1.nx data1.ny data1.nz,
       NativeCall.setResolutions header.zoomX header.zoomY header.zoomZ,
       NativeCall.setArray "FirstInversionMagnitude" (jarrayFloat (flattenF data1)),
       NativeCall.setArray "FirstInversionPhase"
         (jarrayFloat (flattenF (load_volume fs (first_inversion.getD 1 "")).data)),
       NativeCall.setArray "SecondInversionMagnitude"
         (jarrayFloat (flattenF (load_volume fs (second_inversion.getD 0 "")).data)),
       NativeCall.setArray "SecondInversionPhase"
         (jarrayFloat (flattenF (load_volume fs (second_inversion.getD 1 "")).data))]
      ++ (if correct_B1 then
            [NativeCall.setArray "B1mapImage"
              (jarrayFloat (flattenF (load_volume fs (B1_map.getD "")).data))]
          else [])
      ++ [NativeCall.execute]
    match native.execFails with
    | some e =>
      { prints := ["\nT1 Mapping",
                   "\n The underlying Java code did not execute cleanly: ", e],
        statted := stats, nativeCalls := calls, writes := [], dirsCreated := dirs,
        outcome := Outcome.raised (PyExc.native e) }
    | none =>
      let t1_data := reshapeF data1.nx data1.ny data1.nz native.t1Image
      let r1_data := reshapeF data1.nx data1.ny data1.nz native.r1Image
      let uni_data := reshapeF data1.nx data1.ny data1.nz native.uniImage
      let h1 := { header with cal_min := nanminA t1_data, cal_max := nanmaxA t1_data }
      let t1 := niftiImage t1_data affine h1
      let h2 := { h1 with cal_min := nanminA r1_data, cal_max := nanmaxA r1_data }
      let r1 := niftiImage r1_data affine h2
      let h3 := { h2 with cal_min := nanminA uni_data, cal_max := nanmaxA uni_data }
      let uni := niftiImage uni_data affine h3
      let writes := if save_data then
          [(t1_file, t1), (r1_file, r1), (uni_file, uni)]
        else []
      { prints := ["\nT1 Mapping"],
        statted := stats, nativeCalls := calls, writes := writes, dirsCreated := dirs,
        outcome := Outcome.ok { t1 := t1, r1 := r1, uni := uni } }

/-! ## levelset_fusion (src/nighres/shape/levelset_fusion.py) -/

/-- The native `ShapeLevelsetFusion` instance, seen as an oracle. -/
structure NativeLevelset where
  execFails : Option String
  levelsetAverage : List Val

/-- The dictionary returned by `levelset_fusion`, key `result`. -/
structure LevelsetResult where
  result : Niimg

/-- The `lsf-avg` output path `levelset_fusion` derives. -/
def levelsetOutFile (levelset_images : List String)
    (output_dir file_name : Option String) : String :=
  pathJoin (outputDir4saving output_dir (levelset_images.headD ""))
    (fname4saving file_name (levelset_images.headD "") "lsf-avg")

/-- Shallow embedding of `levelset_fusion(levelset_images,
correct_topology, topology_lut_dir, save_data, overwrite, output_dir,
file_name)`. -/
def levelset_fusion (fs : FS) (native : NativeLevelset)
    (levelset_images : List String)
    (correct_topology : Bool) (topology_lut_dir : Option String)
    (save_data overwrite : Bool)
    (output_dir file_name : Option String) : Trace LevelsetResult :=
  let topo := checkTopologyLutDir topology_lut_dir
  let root := levelset_images.headD ""
  let levelset_file := levelsetOutFile levelset_images output_dir file_name
  let dirs := if save_data then [outputDir4saving output_dir root] else []
  let prints0 := ["\nLevelset Shape Fusion"]
    ++ (if save_data then ["output file: " ++ levelset_file] else [])
  let stats := if save_data then
      (if overwrite then [] else probe fs [levelset_file])
    else []
  if save_data && !overwrite && isfile fs levelset_file then
    { prints := prints0 ++ ["skip computation (use existing results)"],
      statted := stats, nativeCalls := [], writes := [], dirsCreated := dirs,
      outcome := Outcome.ok { result := load_volume fs levelset_file } }
  else
    let img := load_volume fs root
    let data := img.data
    let aff := img.affine
    let hdr := img.header
    let calls : List NativeCall :=
      [NativeCall.initVM "6000m" "6000m",
       NativeCall.newInstance "ShapeLevelsetFusion",
       NativeCall.setParamI "NumberOfImages" levelset_images.length,
       NativeCall.setResolutions hdr.zoomX hdr.zoomY hdr.zoomZ,
       NativeCall.setDimensions data.nx data.ny data.nz]
      ++ levelset_images.enum.map (fun p =>
           NativeCall.setArrayAt "LevelsetImage" p.1
             (jarrayFloat (flattenF (load_volume fs p.2).data)))
      ++ [NativeCall.setParamB "CorrectSkeletonTopology" correct_topology,
          NativeCall.setParamS "TopologyLUTdirectory" topo,
          NativeCall.execute]
    match native.execFails with
    | some _ =>
      -- `levelset_fusion.py` does not import `sys`, so evaluating
      -- `sys.exc_info()[0]` inside the `except` handler raises a
      -- NameError, which supersedes the caught native exception: the
      -- caller sees the NameError, not the native failure.
      { prints := prints0
          ++ ["\n The underlying Java code did not execute cleanly: "],
        statted := stats, nativeCalls := calls, writes := [], dirsCreated := dirs,
        outcome := Outcome.raised (PyExc.nameError "sys") }
    | none =>
      let levelset_data := reshapeF data.nx data.ny data.nz native.levelsetAverage
      let h1 := { hdr with cal_min := nanminA levelset_data,
                           cal_max := nanmaxA levelset_data }
      let levelset := niftiImage levelset_data aff h1
      let writes := if save_data then [(levelset_file, levelset)] else []
      { prints := prints0,
        statted := stats, nativeCalls := calls, writes := writes, dirsCreated := dirs,
        outcome := Outcome.ok { result := levelset } }

/-! ## The column-major flatten / reshape convention -/

theorem getD_map_range {α : Type} {n i : ℕ} (f : ℕ → α) (d : α) (h : i < n) :
    (((List.range n).map f).getD i d) = f i := by
  simp [List.getD_eq_getElem?_getD, List.getElem?_range, h]

/-- Reshaping a column-major flattening back to the original dimensions
recovers every in-bounds voxel: `reshapeF` uses the same ordering
convention as `flattenF`. -/
theorem reshapeF_flattenF (a : Arr3) (x y z : ℕ)
    (hx : x < a.nx) (hy : y < a.ny) (hz : z < a.nz) :
    (reshapeF a.nx a.ny a.nz (flattenF a)).val x y z = a.val x y z := by
  have hnx : 0 < a.nx := Nat.lt_of_le_of_lt (Nat.zero_le x) hx
  have hny : 0 < a.ny := Nat.lt_of_le_of_lt (Nat.zero_le y) hy
  have hxy : x + a.nx * y < a.nx * a.ny := by
    calc x + a.nx * y < a.nx + a.nx * y := by omega
    _ = a.nx * (y + 1) := by ring
    _ ≤ a.nx * a.ny := Nat.mul_le_mul_left a.nx (by omega)
  have hi : x + a.nx * (y + a.ny * z) < a.nx * a.ny * a.nz := by
    calc x + a.nx * (y + a.ny * z) = (x + a.nx * y) + (a.nx * a.ny) * z := by ring
    _ < a.nx * a.ny + (a.nx * a.ny) * z := by omega
    _ = (a.nx * a.ny) * (z + 1) := by ring
    _ ≤ a.nx * a.ny * a.nz := Nat.mul_le_mul_left (a.nx * a.ny) (by omega)
  have e1 : (x + a.nx * (y + a.ny * z)) % a.nx = x := by
    rw [Nat.add_mul_mod_self_left, Nat.mod_eq_of_lt hx]
  have ed : (x + a.nx * (y + a.ny * z)) / a.nx = y + a.ny * z := by
    rw [Nat.add_mul_div_left _ _ hnx, Nat.div_eq_of_lt hx, Nat.zero_add]
  have e2 : (x + a.nx * (y + a.ny * z)) / a.nx % a.ny = y := by
    rw [ed, Nat.add_mul_mod_self_left, Nat.mod_eq_of_lt hy]
  have e3 : (x + a.nx * (y + a.ny * z)) / (a.nx * a.ny) = z := by
    rw [← Nat.div_div_eq_div_mul, ed, Nat.add_mul_div_left _ _ hny,
        Nat.div_eq_of_lt hy, Nat.zero_add]
  show (flattenF a).getD (x + a.nx * (y + a.ny * z)) Val.nan = a.val x y z
  rw [flattenF, getD_map_range _ _ hi, e1, e2, e3]

/-! ## Concrete fixtures used by the witnesses -/

/-- A concrete 4x4x4 volume filled with the constant sample `c`. -/
def arrEx (c : ℚ) : Arr3 :=
  { nx := 4, ny := 4, nz := 4, val := fun _ _ _ => Val.num c }

/-- A concrete image over `arrEx c` with identity affine and unit
voxel sizes. -/
def imgEx (c : ℚ) : Niimg :=
  { data := arrEx c,
    affine := [[1,0,0,0],[0,1,0,0],[0,0,1,0],[0,0,0,1]],
    header := { zoomX := 1, zoomY := 1, zoomZ := 1,
                cal_min := Val.nan, cal_max := Val.nan } }

/-- A flat list of 64 constant samples (one 4x4x4 volume's worth). -/
def flat64 (c : ℚ) : List Val := List.replicate 64 (Val.num c)

/-- A concrete filesystem holding input volumes and a complete set of
previously saved outputs for each wrapper. -/
def fsEx : FS :=
  [("a", imgEx 1), ("b", imgEx 2),
   ("m1", imgEx 1), ("p1", imgEx 2), ("m2", imgEx 3), ("p2", imgEx 4),
   ("out/a_qt2fit-t2s.nii", imgEx 5), ("out/a_qt2fit-r2s.nii", imgEx 6),
   ("out/a_qt2fit-s0.nii", imgEx 7), ("out/a_qt2fit-err.nii", imgEx 8),
   ("out/a_lcpca-den.nii", imgEx 5), ("out/b_lcpca-den.nii", imgEx 6),
   ("out/a_lcpca-dim.nii", imgEx 7), ("out/a_lcpca-res.nii", imgEx 8),
   ("out/m1_qt1map-t1.nii", imgEx 5), ("out/m1_qt1map-r1.nii", imgEx 6),
   ("out/m1_qt1map-uni.nii", imgEx 7),
   ("out/a_lsf-avg.nii", imgEx 5)]

/-- A concrete non-failing T2s-fitting oracle. -/
def nativeT2sEx : NativeT2s :=
  { execFails := none, t2sImage := flat64 1, r2sImage := flat64 2,
    s0Image := flat64 3, residualImage := flat64 4 }

/-- A concrete non-failing LCPCA oracle. -/
def nativeLcpcaEx : NativeLcpca :=
  { execFails := none, denoisedMagnitudeAt := fun _ => flat64 1,
    denoisedPhaseAt := fun _ => flat64 2,
    localDimensionImage := flat64 3, noiseFitImage := flat64 4 }

/-- A concrete non-failing MP2RAGE oracle. -/
def nativeMp2rageEx : NativeMp2rage :=
  { execFails := none, t1Image := flat64 1, r1Image := flat64 2,
    uniImage := flat64 3 }

/-- A concrete non-failing levelset-fusion oracle. -/
def nativeLevelsetEx : NativeLevelset :=
  { execFails := none, levelsetAverage := flat64 1 }

/-! ## Claims -/

/-- C1: For every public function call with `save_data=True`: if
`overwrite` is `False` and every expected output file already exists,
the call skips computation entirely and returns the previously saved
results loaded from disk, making no call into the native layer (in
particular no algorithm object is created and nothing is executed) and
writing nothing; if `overwrite` is `True` the native `execute` is
invoked even though all outputs may already exist.  Stated for all four
wrappers (for `lcpca_denoising` the `overwrite=True` part assumes the
call passes the magnitude/phase validation, which otherwise aborts it
before execution). -/
theorem c1_cache_skip_and_overwrite_recompute :
    (∀ fs native image_list te_list output_dir file_name,
      isfile fs (flashOutFile image_list output_dir file_name "qt2fit-t2s") = true →
      isfile fs (flashOutFile image_list output_dir file_name "qt2fit-r2s") = true →
      isfile fs (flashOutFile image_list output_dir file_name "qt2fit-s0") = true →
      isfile fs (flashOutFile image_list output_dir file_name "qt2fit-err") = true →
      (flash_t2s_fitting fs native image_list te_list true false output_dir file_name).nativeCalls = []
      ∧ (flash_t2s_fitting fs native image_list te_list true false output_dir file_name).writes = []
      ∧ (flash_t2s_fitting fs native image_list te_list true false output_dir file_name).outcome
        = Outcome.ok
            { t2s := load_volume fs (flashOutFile image_list output_dir file_name "qt2fit-t2s"),
              r2s := load_volume fs (flashOutFile image_list output_dir file_name "qt2fit-r2s"),
              s0 := load_volume fs (flashOutFile image_list output_dir file_name "qt2fit-s0"),
              residuals := load_volume fs (flashOutFile image_list output_dir file_name "qt2fit-err") })
    ∧ (∀ fs native image_list te_list output_dir file_name,
      NativeCall.execute ∈
        (flash_t2s_fitting fs native image_list te_list true true output_dir file_name).nativeCalls)
    ∧ (∀ fs native image_list phase_list ngb stdev mind maxd output_dir file_name,
      isfile fs (lcpcaOutFile image_list output_dir file_name "lcpca-dim") = true →
      isfile fs (lcpcaOutFile image_list output_dir file_name "lcpca-res") = true →
      (lcpcaDenFiles image_list phase_list output_dir file_name).all (isfile fs) = true →
      (lcpca_denoising fs native image_list phase_list ngb stdev mind maxd true false output_dir file_name).nativeCalls = []
      ∧ (lcpca_denoising fs native image_list phase_list ngb stdev mind maxd true false output_dir file_name).writes = []
      ∧ (lcpca_denoising fs native image_list phase_list ngb stdev mind maxd true false output_dir file_name).outcome
        = Outcome.ok
            { denoised := (lcpcaDenFiles image_list phase_list output_dir file_name).map (load_volume fs),
              dimensions := load_volume fs (lcpcaOutFile image_list output_dir file_name "lcpca-dim"),
              residuals := load_volume fs (lcpcaOutFile image_list output_dir file_name "lcpca-res") })
    ∧ (∀ fs native image_list phase_list ngb stdev mind maxd output_dir file_name,
      (phase_list.isSome && ((phase_list.getD []).length != image_list.length)) = false →
      NativeCall.execute ∈
        (lcpca_denoising fs native image_list phase_list ngb stdev mind maxd true true output_dir file_name).nativeCalls)
    ∧ (∀ fs native fst snd itimes fangles itr etr nexc eff cb1 b1 output_dir file_name,
      isfile fs (mp2rageOutFile fst output_dir file_name "qt1map-t1") = true →
      isfile fs (mp2rageOutFile fst output_dir file_name "qt1map-r1") = true →
      isfile fs (mp2rageOutFile fst output_dir file_name "qt1map-uni") = true →
      (mp2rage_t1_mapping fs native fst snd itimes fangles itr etr nexc eff cb1 b1 true false output_dir file_name).nativeCalls = []
      ∧ (mp2rage_t1_mapping fs native fst snd itimes fangles itr etr nexc eff cb1 b1 true false output_dir file_name).writes = []
      ∧ (mp2rage_t1_mapping fs native fst snd itimes fangles itr etr nexc eff cb1 b1 true false output_dir file_name).outcome
        = Outcome.ok
            { t1 := load_volume fs (mp2rageOutFile fst output_dir file_name "qt1map-t1"),
              r1 := load_volume fs (mp2rageOutFile fst output_dir file_name "qt1map-r1"),
              uni := load_volume fs (mp2rageOutFile fst output_dir file_name "qt1map-uni") })
    ∧ (∀ fs native fst snd itimes fangles itr etr nexc eff cb1 b1 output_dir file_name,
      NativeCall.execute ∈
        (mp2rage_t1_mapping fs native fst snd itimes fangles itr etr nexc eff cb1 b1 true true output_dir file_name).nativeCalls)
    ∧ (∀ fs native levelset_images ct tld output_dir file_name,
      isfile fs (levelsetOutFile levelset_images output_dir file_name) = true →
      (levelset_fusion fs native levelset_images ct tld true false output_dir file_name).nativeCalls = []
      ∧ (levelset_fusion fs native levelset_images ct tld true false output_dir file_name).writes = []
      ∧ (levelset_fusion fs native levelset_images ct tld true false output_dir file_name).outcome
        = Outcome.ok { result := load_volume fs (levelsetOutFile levelset_images output_dir file_name) })
    ∧ (∀ fs native levelset_images ct tld output_dir file_name,
      NativeCall.execute ∈
        (levelset_fusion fs native levelset_images ct tld true true output_dir file_name).nativeCalls) := by
  refine ⟨?_, ?_, ?_, ?_, ?_, ?_, ?_, ?_⟩
  · intro fs native image_list te_list output_dir file_name h1 h2 h3 h4
    refine ⟨?_, ?_, ?_⟩ <;> simp [flash_t2s_fitting, h1, h2, h3, h4]
  · intro fs native image_list te_list output_dir file_name
    rcases hn : native.execFails with _ | e <;> simp [flash_t2s_fitting, hn]
  · intro fs native image_list phase_list ngb stdev mind maxd output_dir file_name h1 h2 h3
    refine ⟨?_, ?_, ?_⟩ <;> simp [lcpca_denoising, h1, h2, h3]
  · intro fs native image_list phase_list ngb stdev mind maxd output_dir file_name hph
    rcases hn : native.execFails with _ | e <;>
      simp [lcpca_denoising, hph, hn]
  · intro fs native fst snd itimes fangles itr etr nexc eff cb1 b1 output_dir file_name h1 h2 h3
    refine ⟨?_, ?_, ?_⟩ <;> simp [mp2rage_t1_mapping, h1, h2, h3]
  · intro fs native fst snd itimes fangles itr etr nexc eff cb1 b1 output_dir file_name
    rcases hn : native.execFails with _ | e <;> simp [mp2rage_t1_mapping, hn]
  · intro fs native levelset_images ct tld output_dir file_name h1
    refine ⟨?_, ?_, ?_⟩ <;> simp [levelset_fusion, h1]
  · intro fs native levelset_images ct tld output_dir file_name
    rcases hn : native.execFails with _ | e <;> simp [levelset_fusion, hn]

/-- Witness for C1: on the concrete filesystem `fsEx`, where every
expected output of each wrapper already exists, the `overwrite=False`
calls make no native call and the `overwrite=True` calls still invoke
`execute`. -/
theorem c1_cache_witness :
    (isfile fsEx (flashOutFile ["a","b"] (some "out") none "qt2fit-t2s") = true
     ∧ isfile fsEx (flashOutFile ["a","b"] (some "out") none "qt2fit-r2s") = true
     ∧ isfile fsEx (flashOutFile ["a","b"] (some "out") none "qt2fit-s0") = true
     ∧ isfile fsEx (flashOutFile ["a","b"] (some "out") none "qt2fit-err") = true)
    ∧ (flash_t2s_fitting fsEx nativeT2sEx ["a","b"] [10,20] true false (some "out") none).nativeCalls = []
    ∧ NativeCall.execute ∈
        (flash_t2s_fitting fsEx nativeT2sEx ["a","b"] [10,20] true true (some "out") none).nativeCalls
    ∧ (lcpca_denoising fsEx nativeLcpcaEx ["a","b"] none 4 (105/100) 0 (-1) true false (some "out") none).nativeCalls = []
    ∧ NativeCall.execute ∈
        (lcpca_denoising fsEx nativeLcpcaEx ["a","b"] none 4 (105/100) 0 (-1) true true (some "out") none).nativeCalls
    ∧ (mp2rage_t1_mapping fsEx nativeMp2rageEx ["m1","p1"] ["m2","p2"] [800,2700] [7,5] 5000 [62/10,62/10] 160 (96/100) false none true false (some "out") none).nativeCalls = []
    ∧ (levelset_fusion fsEx nativeLevelsetEx ["a","b"] true none true false (some "out") none).nativeCalls = [] := by
  refine ⟨⟨by decide, by decide, by decide, by decide⟩, ?_, ?_, ?_, ?_, ?_, ?_⟩
  · exact (c1_cache_skip_and_overwrite_recompute.1 fsEx nativeT2sEx ["a","b"] [10,20]
      (some "out") none (by decide) (by decide) (by decide) (by decide)).1
  · exact c1_cache_skip_and_overwrite_recompute.2.1 fsEx nativeT2sEx ["a","b"] [10,20]
      (some "out") none
  · exact (c1_cache_skip_and_overwrite_recompute.2.2.1 fsEx nativeLcpcaEx ["a","b"] none
      4 (105/100) 0 (-1) (some "out") none (by decide) (by decide) (by decide)).1
  · exact c1_cache_skip_and_overwrite_recompute.2.2.2.1 fsEx nativeLcpcaEx ["a","b"] none
      4 (105/100) 0 (-1) (some "out") none (by decide)
  · exact (c1_cache_skip_and_overwrite_recompute.2.2.2.2.1 fsEx nativeMp2rageEx
      ["m1","p1"] ["m2","p2"] [800,2700] [7,5] 5000 [62/10,62/10] 160 (96/100) false none
      (some "out") none (by decide) (by decide) (by decide)).1
  · exact (c1_cache_skip_and_overwrite_recompute.2.2.2.2.2.2.1 fsEx nativeLevelsetEx
      ["a","b"] true none (some "out") none (by decide)).1

/-- A T2s-fitting oracle whose `execute()` raises. -/
def nativeT2sFail : NativeT2s :=
  { execFails := some "JavaError", t2sImage := [], r2sImage := [],
    s0Image := [], residualImage := [] }

/-- An LCPCA oracle whose `execute()` raises. -/
def nativeLcpcaFail : NativeLcpca :=
  { execFails := some "JavaError", denoisedMagnitudeAt := fun _ => [],
    denoisedPhaseAt := fun _ => [], localDimensionImage := [], noiseFitImage := [] }

/-- An MP2RAGE oracle whose `execute()` raises. -/
def nativeMp2rageFail : NativeMp2rage :=
  { execFails := some "JavaError", t1Image := [], r1Image := [], uniImage := [] }

/-- A levelset-fusion oracle whose `execute()` raises. -/
def nativeLevelsetFail : NativeLevelset :=
  { execFails := some "JavaError", levelsetAverage := [] }

/-- C2 (code bug): When the native `execute()` raises,
`flash_t2s_fitting`, `lcpca_denoising` and `mp2rage_t1_mapping` log the
explanatory message and re-raise the original native exception, exactly
as the claim states — but `levelset_fusion` does not: its module never
imports `sys`, so the `print(sys.exc_info()[0])` inside its `except`
handler raises a `NameError` for the unbound name `sys`, and the caller
sees that `NameError` instead of the original native failure.  The
handler's own comment ("reraise the error it throws") and the three
sibling modules show the re-raise is the intent. -/
theorem c2_native_failure_reraise_bug :
    (flash_t2s_fitting fsEx nativeT2sFail ["a","b"] [10,20] false false none none).outcome
      = Outcome.raised (PyExc.native "JavaError")
    ∧ "\n The underlying Java code did not execute cleanly: "
        ∈ (flash_t2s_fitting fsEx nativeT2sFail ["a","b"] [10,20] false false none none).prints
    ∧ (lcpca_denoising fsEx nativeLcpcaFail ["a","b"] none 4 (105/100) 0 (-1) false false none none).outcome
      = Outcome.raised (PyExc.native "JavaError")
    ∧ (mp2rage_t1_mapping fsEx nativeMp2rageFail ["m1","p1"] ["m2","p2"] [800,2700] [7,5] 5000 [62/10,62/10] 160 (96/100) false none false false none none).outcome
      = Outcome.raised (PyExc.native "JavaError")
    ∧ (levelset_fusion fsEx nativeLevelsetFail ["a","b"] true none false false none none).outcome
      = Outcome.raised (PyExc.nameError "sys")
    ∧ PyExc.nameError "sys" ≠ PyExc.native "JavaError" := by
  refine ⟨rfl, ?_, rfl, rfl, rfl, by decide⟩
  simp [flash_t2s_fitting, nativeT2sFail]

/-- C3 counterexample: A concrete `lcpca_denoising` call with a
phase list of the wrong length does abort by returning without a
result, but only after three calls into the native layer — the VM
initialization, the construction of the `IntensityComplexPCADenoising`
instance and `setImageNumber` — contradicting the claim that the
mismatch is detected before any call into the native layer is made. -/
theorem c3_counterexample :
    (lcpca_denoising fsEx nativeLcpcaEx ["a","b"] (some ["p1"]) 4 (105/100) 0 (-1) false false none none).outcome
      = Outcome.noneRet
    ∧ (lcpca_denoising fsEx nativeLcpcaEx ["a","b"] (some ["p1"]) 4 (105/100) 0 (-1) false false none none).nativeCalls
      = [NativeCall.initVM "12000m" "12000m",
         NativeCall.newInstance "IntensityComplexPCADenoising",
         NativeCall.setParamI "ImageNumber" 2]
    ∧ (lcpca_denoising fsEx nativeLcpcaEx ["a","b"] (some ["p1"]) 4 (105/100) 0 (-1) false false none none).nativeCalls
      ≠ [] := by
  refine ⟨rfl, rfl, by simp [lcpca_denoising]⟩

/-- C3 (amended): On every `lcpca_denoising` call that does not take
the cache-hit return path, a phase list whose length differs from the
magnitude list is detected and reported, and the call aborts by
returning without a result (`None`); the detection happens before any
image data is pushed to the native layer and before `execute()` is
invoked — though after the native VM initialization, the instance
construction and `setImageNumber`, which are the only native-layer
calls such an aborted call makes. -/
theorem c3_mismatch_aborts_before_data_push
    (fs : FS) (native : NativeLcpca) (image_list : List String)
    (pl : List String) (ngb : ℕ) (stdev : ℚ) (mind : ℕ) (maxd : ℤ)
    (save_data overwrite : Bool) (output_dir file_name : Option String)
    (hlen : (pl.length != image_list.length) = true)
    (hc : (save_data && !overwrite
      && isfile fs (lcpcaOutFile image_list output_dir file_name "lcpca-dim")
      && isfile fs (lcpcaOutFile image_list output_dir file_name "lcpca-res")
      && (lcpcaDenFiles image_list (some pl) output_dir file_name).all (isfile fs)) = false) :
    (lcpca_denoising fs native image_list (some pl) ngb stdev mind maxd save_data overwrite output_dir file_name).outcome
      = Outcome.noneRet
    ∧ "\nmismatch of magnitude and phase images: abort"
      ∈ (lcpca_denoising fs native image_list (some pl) ngb stdev mind maxd save_data overwrite output_dir file_name).prints
    ∧ (lcpca_denoising fs native image_list (some pl) ngb stdev mind maxd save_data overwrite output_dir file_name).nativeCalls
      = [NativeCall.initVM "12000m" "12000m",
         NativeCall.newInstance "IntensityComplexPCADenoising",
         NativeCall.setParamI "ImageNumber" image_list.length]
    ∧ NativeCall.execute
      ∉ (lcpca_denoising fs native image_list (some pl) ngb stdev mind maxd save_data overwrite output_dir file_name).nativeCalls := by
  refine ⟨?_, ?_, ?_, ?_⟩ <;> simp [lcpca_denoising, hlen, hc]

/-- Witness for the amended C3 at a concrete mismatched call. -/
theorem c3_mismatch_witness :
    ((["p1"] : List String).length != (["a","b"] : List String).length) = true
    ∧ (false && !false
      && isfile fsEx (lcpcaOutFile ["a","b"] none none "lcpca-dim")
      && isfile fsEx (lcpcaOutFile ["a","b"] none none "lcpca-res")
      && (lcpcaDenFiles ["a","b"] (some ["p1"]) none none).all (isfile fsEx)) = false
    ∧ (lcpca_denoising fsEx nativeLcpcaEx ["a","b"] (some ["p1"]) 4 (105/100) 0 (-1) false false none none).outcome
      = Outcome.noneRet := by
  refine ⟨by decide, by decide, ?_⟩
  exact (c3_mismatch_aborts_before_data_push fsEx nativeLcpcaEx ["a","b"] ["p1"]
    4 (105/100) 0 (-1) false false none none (by decide) (by decide)).1

/-- A filesystem holding the inputs and only a strict subset of each
wrapper's expected outputs (`qt2fit-err`, the second `lcpca-den` and
`qt1map-uni` are missing). -/
def fsPartial : FS :=
  [("a", imgEx 1), ("b", imgEx 2),
   ("m1", imgEx 1), ("p1", imgEx 2), ("m2", imgEx 3), ("p2", imgEx 4),
   ("out/a_qt2fit-t2s.nii", imgEx 5), ("out/a_qt2fit-r2s.nii", imgEx 6),
   ("out/a_qt2fit-s0.nii", imgEx 7),
   ("out/a_lcpca-den.nii", imgEx 5), ("out/a_lcpca-dim.nii", imgEx 7),
   ("out/a_lcpca-res.nii", imgEx 8),
   ("out/m1_qt1map-t1.nii", imgEx 5), ("out/m1_qt1map-r1.nii", imgEx 6)]

/-- C4: With `save_data=True` and `overwrite=False`, whenever not
every expected output file exists (in particular when some but not all
do), the computation is redone in full: the native `execute` is
invoked, every output is rebuilt from the native results (never loaded
from the remaining files), and every output file is (re)written.
Stated for `flash_t2s_fitting`, `lcpca_denoising` and
`mp2rage_t1_mapping` (for `lcpca_denoising` assuming the call passes
the magnitude/phase validation). -/
theorem c4_partial_cache_recomputes_all :
    (∀ fs native image_list te_list output_dir file_name,
      (isfile fs (flashOutFile image_list output_dir file_name "qt2fit-t2s")
        && isfile fs (flashOutFile image_list output_dir file_name "qt2fit-r2s")
        && isfile fs (flashOutFile image_list output_dir file_name "qt2fit-s0")
        && isfile fs (flashOutFile image_list output_dir file_name "qt2fit-err")) = false →
      NativeCall.execute ∈
        (flash_t2s_fitting fs native image_list te_list true false output_dir file_name).nativeCalls
      ∧ (native.execFails = none →
          (flash_t2s_fitting fs native image_list te_list true false output_dir file_name).writes.map Prod.fst
            = [flashOutFile image_list output_dir file_name "qt2fit-t2s",
               flashOutFile image_list output_dir file_name "qt2fit-r2s",
               flashOutFile image_list output_dir file_name "qt2fit-s0",
               flashOutFile image_list output_dir file_name "qt2fit-err"]
          ∧ ∃ r, (flash_t2s_fitting fs native image_list te_list true false output_dir file_name).outcome
              = Outcome.ok r
            ∧ r.t2s.data = reshapeF (load_volume fs (image_list.headD "")).data.nx
                (load_volume fs (image_list.headD "")).data.ny
                (load_volume fs (image_list.headD "")).data.nz native.t2sImage
            ∧ r.r2s.data = reshapeF (load_volume fs (image_list.headD "")).data.nx
                (load_volume fs (image_list.headD "")).data.ny
                (load_volume fs (image_list.headD "")).data.nz native.r2sImage
            ∧ r.s0.data = reshapeF (load_volume fs (image_list.headD "")).data.nx
                (load_volume fs (image_list.headD "")).data.ny
                (load_volume fs (image_list.headD "")).data.nz native.s0Image
            ∧ r.residuals.data = reshapeF (load_volume fs (image_list.headD "")).data.nx
                (load_volume fs (image_list.headD "")).data.ny
                (load_volume fs (image_list.headD "")).data.nz native.residualImage))
    ∧ (∀ fs native image_list phase_list ngb stdev mind maxd output_dir file_name,
      (isfile fs (lcpcaOutFile image_list output_dir file_name "lcpca-dim")
        && isfile fs (lcpcaOutFile image_list output_dir file_name "lcpca-res")
        && (lcpcaDenFiles image_list phase_list output_dir file_name).all (isfile fs)) = false →
      (phase_list.isSome && ((phase_list.getD []).length != image_list.length)) = false →
      NativeCall.execute ∈
        (lcpca_denoising fs native image_list phase_list ngb stdev mind maxd true false output_dir file_name).nativeCalls
      ∧ (native.execFails = none →
          (lcpca_denoising fs native image_list phase_list ngb stdev mind maxd true false output_dir file_name).writes.map Prod.fst
            = (List.range image_list.length).map
                (fun idx => (lcpcaDenFiles image_list phase_list output_dir file_name).getD idx "")
              ++ (List.range (phase_list.getD []).length).map
                   (fun idx => (lcpcaDenFiles image_list phase_list output_dir file_name).getD (idx + image_list.length) "")
              ++ [lcpcaOutFile image_list output_dir file_name "lcpca-dim",
                  lcpcaOutFile image_list output_dir file_name "lcpca-res"]
          ∧ ∃ r, (lcpca_denoising fs native image_list phase_list ngb stdev mind maxd true false output_dir file_name).outcome
              = Outcome.ok r
            ∧ r.dimensions.data = reshapeF (load_volume fs (image_list.headD "")).data.nx
                (load_volume fs (image_list.headD "")).data.ny
                (load_volume fs (image_list.headD "")).data.nz native.localDimensionImage
            ∧ r.residuals.data = reshapeF (load_volume fs (image_list.headD "")).data.nx
                (load_volume fs (image_list.headD "")).data.ny
                (load_volume fs (image_list.headD "")).data.nz native.noiseFitImage
            ∧ r.denoised.length = image_list.length + (phase_list.getD []).length))
    ∧ (∀ fs native fst snd itimes fangles itr etr nexc eff cb1 b1 output_dir file_name,
      (isfile fs (mp2rageOutFile fst output_dir file_name "qt1map-t1")
        && isfile fs (mp2rageOutFile fst output_dir file_name "qt1map-r1")
        && isfile fs (mp2rageOutFile fst output_dir file_name "qt1map-uni")) = false →
      NativeCall.execute ∈
        (mp2rage_t1_mapping fs native fst snd itimes fangles itr etr nexc eff cb1 b1 true false output_dir file_name).nativeCalls
      ∧ (native.execFails = none →
          (mp2rage_t1_mapping fs native fst snd itimes fangles itr etr nexc eff cb1 b1 true false output_dir file_name).writes.map Prod.fst
            = [mp2rageOutFile fst output_dir file_name "qt1map-t1",
               mp2rageOutFile fst output_dir file_name "qt1map-r1",
               mp2rageOutFile fst output_dir file_name "qt1map-uni"]
          ∧ ∃ r, (mp2rage_t1_mapping fs native fst snd itimes fangles itr etr nexc eff cb1 b1 true false output_dir file_name).outcome
              = Outcome.ok r
            ∧ r.t1.data = reshapeF (load_volume fs (fst.headD "")).data.nx
                (load_volume fs (fst.headD "")).data.ny
                (load_volume fs (fst.headD "")).data.nz native.t1Image
            ∧ r.r1.data = reshapeF (load_volume fs (fst.headD "")).data.nx
                (load_volume fs (fst.headD "")).data.ny
                (load_volume fs (fst.headD "")).data.nz native.r1Image
            ∧ r.uni.data = reshapeF (load_volume fs (fst.headD "")).data.nx
                (load_volume fs (fst.headD "")).data.ny
                (load_volume fs (fst.headD "")).data.nz native.uniImage)) := by
  refine ⟨?_, ?_, ?_⟩
  · intro fs native image_list te_list output_dir file_name hc
    constructor
    · rcases hn : native.execFails with _ | e <;> simp [flash_t2s_fitting, hc, hn]
    · intro hn
      refine ⟨by simp [flash_t2s_fitting, hc, hn], ?_⟩
      simp [flash_t2s_fitting, niftiImage, hc, hn]
  · intro fs native image_list phase_list ngb stdev mind maxd output_dir file_name hc hph
    constructor
    · rcases hn : native.execFails with _ | e <;> simp [lcpca_denoising, hc, hph, hn]
    · intro hn
      refine ⟨by simp [lcpca_denoising, hc, hph, hn, Function.comp_def], ?_⟩
      simp [lcpca_denoising, niftiImage, hc, hph, hn]
  · intro fs native fst snd itimes fangles itr etr nexc eff cb1 b1 output_dir file_name hc
    constructor
    · rcases hn : native.execFails with _ | e <;> simp [mp2rage_t1_mapping, hc, hn]
    · intro hn
      refine ⟨by simp [mp2rage_t1_mapping, hc, hn], ?_⟩
      simp [mp2rage_t1_mapping, niftiImage, hc, hn]

/-- Witness for C4 on `fsPartial`, where exactly one expected output of
each wrapper has been deleted. -/
theorem c4_partial_cache_witness :
    (isfile fsPartial (flashOutFile ["a","b"] (some "out") none "qt2fit-t2s")
      && isfile fsPartial (flashOutFile ["a","b"] (some "out") none "qt2fit-r2s")
      && isfile fsPartial (flashOutFile ["a","b"] (some "out") none "qt2fit-s0")
      && isfile fsPartial (flashOutFile ["a","b"] (some "out") none "qt2fit-err")) = false
    ∧ isfile fsPartial (flashOutFile ["a","b"] (some "out") none "qt2fit-t2s") = true
    ∧ NativeCall.execute ∈
        (flash_t2s_fitting fsPartial nativeT2sEx ["a","b"] [10,20] true false (some "out") none).nativeCalls
    ∧ NativeCall.execute ∈
        (lcpca_denoising fsPartial nativeLcpcaEx ["a","b"] none 4 (105/100) 0 (-1) true false (some "out") none).nativeCalls
    ∧ NativeCall.execute ∈
        (mp2rage_t1_mapping fsPartial nativeMp2rageEx ["m1","p1"] ["m2","p2"] [800,2700] [7,5] 5000 [62/10,62/10] 160 (96/100) false none true false (some "out") none).nativeCalls := by
  refine ⟨by decide, by decide, ?_, ?_, ?_⟩
  · exact (c4_partial_cache_recomputes_all.1 fsPartial nativeT2sEx ["a","b"] [10,20]
      (some "out") none (by decide)).1
  · exact (c4_partial_cache_recomputes_all.2.1 fsPartial nativeLcpcaEx ["a","b"] none
      4 (105/100) 0 (-1) (some "out") none (by decide) (by decide)).1
  · exact (c4_partial_cache_recomputes_all.2.2 fsPartial nativeMp2rageEx ["m1","p1"] ["m2","p2"]
      [800,2700] [7,5] 5000 [62/10,62/10] 160 (96/100) false none (some "out") none (by decide)).1

/-- C5: On every non-cached call that succeeds, each returned
output array is the native flat result reshaped in column-major order
to exactly the dimensions (X,Y,Z) of the first input volume — the same
dimensions and ordering convention used to flatten the inputs
(`reshapeF` inverts `flattenF` voxel-for-voxel).  Stated for
`flash_t2s_fitting` and `mp2rage_t1_mapping`. -/
theorem c5_round_trip_shape :
    (∀ fs native image_list te_list save_data overwrite output_dir file_name,
      (save_data && !overwrite
        && isfile fs (flashOutFile image_list output_dir file_name "qt2fit-t2s")
        && isfile fs (flashOutFile image_list output_dir file_name "qt2fit-r2s")
        && isfile fs (flashOutFile image_list output_dir file_name "qt2fit-s0")
        && isfile fs (flashOutFile image_list output_dir file_name "qt2fit-err")) = false →
      native.execFails = none →
      ∃ r, (flash_t2s_fitting fs native image_list te_list save_data overwrite output_dir file_name).outcome
          = Outcome.ok r
        ∧ r.t2s.data = reshapeF (load_volume fs (image_list.headD "")).data.nx
            (load_volume fs (image_list.headD "")).data.ny
            (load_volume fs (image_list.headD "")).data.nz native.t2sImage
        ∧ r.r2s.data = reshapeF (load_volume fs (image_list.headD "")).data.nx
            (load_volume fs (image_list.headD "")).data.ny
            (load_volume fs (image_list.headD "")).data.nz native.r2sImage
        ∧ r.s0.data = reshapeF (load_volume fs (image_list.headD "")).data.nx
            (load_volume fs (image_list.headD "")).data.ny
            (load_volume fs (image_list.headD "")).data.nz native.s0Image
        ∧ r.residuals.data = reshapeF (load_volume fs (image_list.headD "")).data.nx
            (load_volume fs (image_list.headD "")).data.ny
            (load_volume fs (image_list.headD "")).data.nz native.residualImage
        ∧ r.t2s.data.nx = (load_volume fs (image_list.headD "")).data.nx
        ∧ r.t2s.data.ny = (load_volume fs (image_list.headD "")).data.ny
        ∧ r.t2s.data.nz = (load_volume fs (image_list.headD "")).data.nz
        ∧ r.r2s.data.nx = (load_volume fs (image_list.headD "")).data.nx
        ∧ r.r2s.data.ny = (load_volume fs (image_list.headD "")).data.ny
        ∧ r.r2s.data.nz = (load_volume fs (image_list.headD "")).data.nz
        ∧ r.s0.data.nx = (load_volume fs (image_list.headD "")).data.nx
        ∧ r.s0.data.ny = (load_volume fs (image_list.headD "")).data.ny
        ∧ r.s0.data.nz = (load_volume fs (image_list.headD "")).data.nz
        ∧ r.residuals.data.nx = (load_volume fs (image_list.headD "")).data.nx
        ∧ r.residuals.data.ny = (load_volume fs (image_list.headD "")).data.ny
        ∧ r.residuals.data.nz = (load_volume fs (image_list.headD "")).data.nz)
    ∧ (∀ fs native fst snd itimes fangles itr etr nexc eff cb1 b1 save_data overwrite output_dir file_name,
      (save_data && !overwrite
        && isfile fs (mp2rageOutFile fst output_dir file_name "qt1map-t1")
        && isfile fs (mp2rageOutFile fst output_dir file_name "qt1map-r1")
        && isfile fs (mp2rageOutFile fst output_dir file_name "qt1map-uni")) = false →
      native.execFails = none →
      ∃ r, (mp2rage_t1_mapping fs native fst snd itimes fangles itr etr nexc eff cb1 b1 save_data overwrite output_dir file_name).outcome
          = Outcome.ok r
        ∧ r.t1.data = reshapeF (load_volume fs (fst.headD "")).data.nx
            (load_volume fs (fst.headD "")).data.ny
            (load_volume fs (fst.headD "")).data.nz native.t1Image
        ∧ r.r1.data = reshapeF (load_volume fs (fst.headD "")).data.nx
            (load_volume fs (fst.headD "")).data.ny
            (load_volume fs (fst.headD "")).data.nz native.r1Image
        ∧ r.uni.data = reshapeF (load_volume fs (fst.headD "")).data.nx
            (load_volume fs (fst.headD "")).data.ny
            (load_volume fs (fst.headD "")).data.nz native.uniImage
        ∧ r.t1.data.nx = (load_volume fs (fst.headD "")).data.nx
        ∧ r.t1.data.ny = (load_volume fs (fst.headD "")).data.ny
        ∧ r.t1.data.nz = (load_volume fs (fst.headD "")).data.nz
        ∧ r.r1.data.nx = (load_volume fs (fst.headD "")).data.nx
        ∧ r.r1.data.ny = (load_volume fs (fst.headD "")).data.ny
        ∧ r.r1.data.nz = (load_volume fs (fst.headD "")).data.nz
        ∧ r.uni.data.nx = (load_volume fs (fst.headD "")).data.nx
        ∧ r.uni.data.ny = (load_volume fs (fst.headD "")).data.ny
        ∧ r.uni.data.nz = (load_volume fs (fst.headD "")).data.nz)
    ∧ (∀ a : Arr3, ∀ x y z : ℕ, x < a.nx → y < a.ny → z < a.nz →
        (reshapeF a.nx a.ny a.nz (flattenF a)).val x y z = a.val x y z) := by
  refine ⟨?_, ?_, fun a x y z hx hy hz => reshapeF_flattenF a x y z hx hy hz⟩
  · intro fs native image_list te_list save_data overwrite output_dir file_name hc hn
    simp [flash_t2s_fitting, niftiImage, reshapeF, hc, hn]
  · intro fs native fst snd itimes fangles itr etr nexc eff cb1 b1 save_data overwrite output_dir file_name hc hn
    simp [mp2rage_t1_mapping, niftiImage, reshapeF, hc, hn]

/-- Witness for C5 at a concrete non-cached `flash_t2s_fitting` call on
two 4x4x4 inputs. -/
theorem c5_round_trip_witness :
    (false && !false
      && isfile fsEx (flashOutFile ["a","b"] none none "qt2fit-t2s")
      && isfile fsEx (flashOutFile ["a","b"] none none "qt2fit-r2s")
      && isfile fsEx (flashOutFile ["a","b"] none none "qt2fit-s0")
      && isfile fsEx (flashOutFile ["a","b"] none none "qt2fit-err")) = false
    ∧ nativeT2sEx.execFails = none
    ∧ ∃ r, (flash_t2s_fitting fsEx nativeT2sEx ["a","b"] [10,20] false false none none).outcome
        = Outcome.ok r
      ∧ r.t2s.data = reshapeF (load_volume fsEx (["a","b"].headD "")).data.nx
          (load_volume fsEx (["a","b"].headD "")).data.ny
          (load_volume fsEx (["a","b"].headD "")).data.nz nativeT2sEx.t2sImage := by
  refine ⟨by decide, by decide, ?_⟩
  obtain ⟨r, h1, h2, -⟩ := c5_round_trip_shape.1 fsEx nativeT2sEx ["a","b"] [10,20]
    false false none none (by decide) (by decide)
  exact ⟨r, h1, h2⟩

/-- C6: On every non-cached call that succeeds, each returned image
carries the affine transform of the first input image, and its header's
calibration range equals the NaN-excluded min/max of that image's own
output array (nibabel snapshots the header at construction, so outputs
built later from the same mutated header object do not overwrite it).
Stated for `flash_t2s_fitting` and `levelset_fusion`. -/
theorem c6_header_propagation :
    (∀ fs native image_list te_list save_data overwrite output_dir file_name,
      (save_data && !overwrite
        && isfile fs (flashOutFile image_list output_dir file_name "qt2fit-t2s")
        && isfile fs (flashOutFile image_list output_dir file_name "qt2fit-r2s")
        && isfile fs (flashOutFile image_list output_dir file_name "qt2fit-s0")
        && isfile fs (flashOutFile image_list output_dir file_name "qt2fit-err")) = false →
      native.execFails = none →
      ∃ r, (flash_t2s_fitting fs native image_list te_list save_data overwrite output_dir file_name).outcome
          = Outcome.ok r
        ∧ r.t2s.affine = (load_volume fs (image_list.headD "")).affine
        ∧ r.r2s.affine = (load_volume fs (image_list.headD "")).affine
        ∧ r.s0.affine = (load_volume fs (image_list.headD "")).affine
        ∧ r.residuals.affine = (load_volume fs (image_list.headD "")).affine
        ∧ r.t2s.header.cal_min = nanminA r.t2s.data
        ∧ r.t2s.header.cal_max = nanmaxA r.t2s.data
        ∧ r.r2s.header.cal_min = nanminA r.r2s.data
        ∧ r.r2s.header.cal_max = nanmaxA r.r2s.data
        ∧ r.s0.header.cal_min = nanminA r.s0.data
        ∧ r.s0.header.cal_max = nanmaxA r.s0.data
        ∧ r.residuals.header.cal_min = nanminA r.residuals.data
        ∧ r.residuals.header.cal_max = nanmaxA r.residuals.data)
    ∧ (∀ fs native levelset_images ct tld save_data overwrite output_dir file_name,
      (save_data && !overwrite
        && isfile fs (levelsetOutFile levelset_images output_dir file_name)) = false →
      native.execFails = none →
      ∃ r, (levelset_fusion fs native levelset_images ct tld save_data overwrite output_dir file_name).outcome
          = Outcome.ok r
        ∧ r.result.affine = (load_volume fs (levelset_images.headD "")).affine
        ∧ r.result.header.cal_min = nanminA r.result.data
        ∧ r.result.header.cal_max = nanmaxA r.result.data) := by
  constructor
  · intro fs native image_list te_list save_data overwrite output_dir file_name hc hn
    simp [flash_t2s_fitting, niftiImage, hc, hn]
  · intro fs native levelset_images ct tld save_data overwrite output_dir file_name hc hn
    simp [levelset_fusion, niftiImage, hc, hn]

/-- Witness for C6 at a concrete non-cached `levelset_fusion` call. -/
theorem c6_header_witness :
    (false && !false && isfile fsEx (levelsetOutFile ["a","b"] none none)) = false
    ∧ nativeLevelsetEx.execFails = none
    ∧ ∃ r, (levelset_fusion fsEx nativeLevelsetEx ["a","b"] true none false false none none).outcome
        = Outcome.ok r
      ∧ r.result.affine = (load_volume fsEx (["a","b"].headD "")).affine
      ∧ r.result.header.cal_min = nanminA r.result.data
      ∧ r.result.header.cal_max = nanmaxA r.result.data := by
  exact ⟨by decide, by decide,
    (c6_header_propagation.2 fsEx nativeLevelsetEx ["a","b"] true none
      false false none none (by decide) (by decide))⟩

/-- C7: With `save_data=False` no wrapper performs any filesystem
write: no output volume is saved and no output directory is created
(all of that sits under the `if save_data:` guards).  Moreover, a
`flash_t2s_fitting` call on two 4x4x4 input volumes with echo times
[10, 20] and `save_data=False` returns exactly the four images keyed
`t2s`, `r2s`, `s0`, `residuals` (the fields of `FlashResult`), each
shaped (4,4,4). -/
theorem c7_no_writes_without_save_data :
    (∀ fs native image_list te_list overwrite output_dir file_name,
      (flash_t2s_fitting fs native image_list te_list false overwrite output_dir file_name).writes = []
      ∧ (flash_t2s_fitting fs native image_list te_list false overwrite output_dir file_name).dirsCreated = [])
    ∧ (∀ fs native image_list phase_list ngb stdev mind maxd overwrite output_dir file_name,
      (lcpca_denoising fs native image_list phase_list ngb stdev mind maxd false overwrite output_dir file_name).writes = []
      ∧ (lcpca_denoising fs native image_list phase_list ngb stdev mind maxd false overwrite output_dir file_name).dirsCreated = [])
    ∧ (∀ fs native fst snd itimes fangles itr etr nexc eff cb1 b1 overwrite output_dir file_name,
      (mp2rage_t1_mapping fs native fst snd itimes fangles itr etr nexc eff cb1 b1 false overwrite output_dir file_name).writes = []
      ∧ (mp2rage_t1_mapping fs native fst snd itimes fangles itr etr nexc eff cb1 b1 false overwrite output_dir file_name).dirsCreated = [])
    ∧ (∀ fs native levelset_images ct tld overwrite output_dir file_name,
      (levelset_fusion fs native levelset_images ct tld false overwrite output_dir file_name).writes = []
      ∧ (levelset_fusion fs native levelset_images ct tld false overwrite output_dir file_name).dirsCreated = [])
    ∧ (∀ fs native p1 p2,
      (load_volume fs p1).data.nx = 4 → (load_volume fs p1).data.ny = 4 →
      (load_volume fs p1).data.nz = 4 → native.execFails = none →
      ∃ r, (flash_t2s_fitting fs native [p1, p2] [10, 20] false false none none).outcome
          = Outcome.ok r
        ∧ r.t2s.data.nx = 4 ∧ r.t2s.data.ny = 4 ∧ r.t2s.data.nz = 4
        ∧ r.r2s.data.nx = 4 ∧ r.r2s.data.ny = 4 ∧ r.r2s.data.nz = 4
        ∧ r.s0.data.nx = 4 ∧ r.s0.data.ny = 4 ∧ r.s0.data.nz = 4
        ∧ r.residuals.data.nx = 4 ∧ r.residuals.data.ny = 4 ∧ r.residuals.data.nz = 4) := by
  refine ⟨?_, ?_, ?_, ?_, ?_⟩
  · intro fs native image_list te_list overwrite output_dir file_name
    rcases hn : native.execFails with _ | e <;>
      exact ⟨by simp [flash_t2s_fitting, hn], by simp [flash_t2s_fitting, hn]⟩
  · intro fs native image_list phase_list ngb stdev mind maxd overwrite output_dir file_name
    rcases hn : native.execFails with _ | e <;>
      cases hm : (phase_list.isSome && ((phase_list.getD []).length != image_list.length)) <;>
      exact ⟨by simp [lcpca_denoising, hn, hm], by simp [lcpca_denoising, hn, hm]⟩
  · intro fs native fst snd itimes fangles itr etr nexc eff cb1 b1 overwrite output_dir file_name
    rcases hn : native.execFails with _ | e <;>
      exact ⟨by simp [mp2rage_t1_mapping, hn], by simp [mp2rage_t1_mapping, hn]⟩
  · intro fs native levelset_images ct tld overwrite output_dir file_name
    rcases hn : native.execFails with _ | e <;>
      exact ⟨by simp [levelset_fusion, hn], by simp [levelset_fusion, hn]⟩
  · intro fs native p1 p2 hx hy hz hn
    simp [flash_t2s_fitting, niftiImage, reshapeF, hx, hy, hz, hn]

/-- Witness for C7's scenario conjunct at a concrete call on two 4x4x4
volumes. -/
theorem c7_scenario_witness :
    (load_volume fsEx "a").data.nx = 4 ∧ (load_volume fsEx "a").data.ny = 4
    ∧ (load_volume fsEx "a").data.nz = 4 ∧ nativeT2sEx.execFails = none
    ∧ ∃ r, (flash_t2s_fitting fsEx nativeT2sEx ["a", "b"] [10, 20] false false none none).outcome
        = Outcome.ok r
      ∧ r.t2s.data.nx = 4 ∧ r.t2s.data.ny = 4 ∧ r.t2s.data.nz = 4
      ∧ r.r2s.data.nx = 4 ∧ r.r2s.data.ny = 4 ∧ r.r2s.data.nz = 4
      ∧ r.s0.data.nx = 4 ∧ r.s0.data.ny = 4 ∧ r.s0.data.nz = 4
      ∧ r.residuals.data.nx = 4 ∧ r.residuals.data.ny = 4 ∧ r.residuals.data.nz = 4 := by
  exact ⟨by decide, by decide, by decide, by decide,
    c7_no_writes_without_save_data.2.2.2.2 fsEx nativeT2sEx "a" "b"
      (by decide) (by decide) (by decide) (by decide)⟩

/-- The indexed arrays handed to the native instance, in the order they
were pushed. -/
def pushedArrays (calls : List NativeCall) : List (String × ℕ × List JFloat) :=
  calls.filterMap (fun c =>
    match c with
    | NativeCall.setArrayAt name idx arr => some (name, idx, arr)
    | _ => none)

theorem filterMap_some_comp {α β : Type} (l : List α) (g : α → β) :
    (l.filterMap fun a => some (g a)) = l.map g := by
  induction l with
  | nil => rfl
  | cons a l ih => simp [List.filterMap_cons, ih]

theorem filterMap_none_comp {α β : Type} (l : List α) :
    (l.filterMap fun _ => (none : Option β)) = [] := by
  induction l with
  | nil => rfl
  | cons a l ih => simp [List.filterMap_cons, ih]

/-- C8: Every input image pushed across the bridge is the image's
voxel array flattened in column-major order with each sample cast to
32-bit floating point (`JArray('float')` marshalling), pushed at the
image's index in its list.  Stated for `flash_t2s_fitting` (echo
images) and `lcpca_denoising` (magnitude then phase images). -/
theorem c8_push_flatten_f32 :
    (∀ fs native image_list te_list save_data overwrite output_dir file_name,
      (save_data && !overwrite
        && isfile fs (flashOutFile image_list output_dir file_name "qt2fit-t2s")
        && isfile fs (flashOutFile image_list output_dir file_name "qt2fit-r2s")
        && isfile fs (flashOutFile image_list output_dir file_name "qt2fit-s0")
        && isfile fs (flashOutFile image_list output_dir file_name "qt2fit-err")) = false →
      pushedArrays (flash_t2s_fitting fs native image_list te_list save_data overwrite output_dir file_name).nativeCalls
        = image_list.enum.map (fun p =>
            ("EchoImage", p.1, jarrayFloat (flattenF (load_volume fs p.2).data))))
    ∧ (∀ fs native image_list phase_list ngb stdev mind maxd save_data overwrite output_dir file_name,
      (save_data && !overwrite
        && isfile fs (lcpcaOutFile image_list output_dir file_name "lcpca-dim")
        && isfile fs (lcpcaOutFile image_list output_dir file_name "lcpca-res")
        && (lcpcaDenFiles image_list phase_list output_dir file_name).all (isfile fs)) = false →
      (phase_list.isSome && ((phase_list.getD []).length != image_list.length)) = false →
      pushedArrays (lcpca_denoising fs native image_list phase_list ngb stdev mind maxd save_data overwrite output_dir file_name).nativeCalls
        = image_list.enum.map (fun p =>
            ("MagnitudeImage", p.1, jarrayFloat (flattenF (load_volume fs p.2).data)))
          ++ (phase_list.getD []).enum.map (fun p =>
               ("PhaseImage", p.1, jarrayFloat (flattenF (load_volume fs p.2).data)))) := by
  constructor
  · intro fs native image_list te_list save_data overwrite output_dir file_name hc
    rcases hn : native.execFails with _ | e <;>
      simp [flash_t2s_fitting, pushedArrays, hc, hn, List.filterMap_map,
        Function.comp_def, filterMap_some_comp, filterMap_none_comp]
  · intro fs native image_list phase_list ngb stdev mind maxd save_data overwrite output_dir file_name hc hph
    rcases hn : native.execFails with _ | e <;>
      simp [lcpca_denoising, pushedArrays, hc, hph, hn, List.filterMap_map,
        Function.comp_def, filterMap_some_comp, filterMap_none_comp]

/-- Witness for C8 at a concrete `lcpca_denoising` call with one
magnitude and one phase image. -/
theorem c8_push_witness :
    (false && !false
      && isfile fsEx (lcpcaOutFile ["a"] none none "lcpca-dim")
      && isfile fsEx (lcpcaOutFile ["a"] none none "lcpca-res")
      && (lcpcaDenFiles ["a"] (some ["p1"]) none none).all (isfile fsEx)) = false
    ∧ ((some ["p1"] : Option (List String)).isSome
        && (((some ["p1"] : Option (List String)).getD []).length != (["a"] : List String).length)) = false
    ∧ pushedArrays (lcpca_denoising fsEx nativeLcpcaEx ["a"] (some ["p1"]) 4 (105/100) 0 (-1) false false none none).nativeCalls
      = (["a"] : List String).enum.map (fun p =>
          ("MagnitudeImage", p.1, jarrayFloat (flattenF (load_volume fsEx p.2).data)))
        ++ ((some ["p1"] : Option (List String)).getD []).enum.map (fun p =>
             ("PhaseImage", p.1, jarrayFloat (flattenF (load_volume fsEx p.2).data))) := by
  exact ⟨by decide, by decide,
    c8_push_flatten_f32.2 fsEx nativeLcpcaEx ["a"] (some ["p1"]) 4 (105/100) 0 (-1)
      false false none none (by decide) (by decide)⟩

/-- C9: With `save_data=False` the on-disk cache is never
consulted: no `os.path.isfile` probe is made, regardless of the
`overwrite` flag and of what exists on disk, so the cache-hit return
path is unreachable and (for the cited `flash_t2s_fitting` and
`mp2rage_t1_mapping`, which have no validation-abort path, and likewise
`levelset_fusion`) the native `execute` is always invoked. -/
theorem c9_no_cache_without_save_data :
    (∀ fs native image_list te_list overwrite output_dir file_name,
      (flash_t2s_fitting fs native image_list te_list false overwrite output_dir file_name).statted = []
      ∧ NativeCall.execute ∈
          (flash_t2s_fitting fs native image_list te_list false overwrite output_dir file_name).nativeCalls)
    ∧ (∀ fs native fst snd itimes fangles itr etr nexc eff cb1 b1 overwrite output_dir file_name,
      (mp2rage_t1_mapping fs native fst snd itimes fangles itr etr nexc eff cb1 b1 false overwrite output_dir file_name).statted = []
      ∧ NativeCall.execute ∈
          (mp2rage_t1_mapping fs native fst snd itimes fangles itr etr nexc eff cb1 b1 false overwrite output_dir file_name).nativeCalls)
    ∧ (∀ fs native image_list phase_list ngb stdev mind maxd overwrite output_dir file_name,
      (lcpca_denoising fs native image_list phase_list ngb stdev mind maxd false overwrite output_dir file_name).statted = [])
    ∧ (∀ fs native levelset_images ct tld overwrite output_dir file_name,
      (levelset_fusion fs native levelset_images ct tld false overwrite output_dir file_name).statted = []
      ∧ NativeCall.execute ∈
          (levelset_fusion fs native levelset_images ct tld false overwrite output_dir file_name).nativeCalls) := by
  refine ⟨?_, ?_, ?_, ?_⟩
  · intro fs native image_list te_list overwrite output_dir file_name
    rcases hn : native.execFails with _ | e <;>
      exact ⟨by simp [flash_t2s_fitting, hn], by simp [flash_t2s_fitting, hn]⟩
  · intro fs native fst snd itimes fangles itr etr nexc eff cb1 b1 overwrite output_dir file_name
    rcases hn : native.execFails with _ | e <;>
      exact ⟨by simp [mp2rage_t1_mapping, hn], by simp [mp2rage_t1_mapping, hn]⟩
  · intro fs native image_list phase_list ngb stdev mind maxd overwrite output_dir file_name
    rcases hn : native.execFails with _ | e <;>
      cases hm : (phase_list.isSome && ((phase_list.getD []).length != image_list.length)) <;>
      simp [lcpca_denoising, hn, hm]
  · intro fs native levelset_images ct tld overwrite output_dir file_name
    rcases hn : native.execFails with _ | e <;>
      exact ⟨by simp [levelset_fusion, hn], by simp [levelset_fusion, hn]⟩

/-- C10: On every successful non-cached `lcpca_denoising` call with
a phase list of the same length as the magnitude list, the returned
`denoised` value is a list of `len(image_list) + len(phase_list)`
images: first the denoised magnitude images in `image_list` order
(entry `idx` built from `getDenoisedMagnitudeImageAt(idx)`), then the
denoised phase images in `phase_list` order (entry
`len(image_list) + idx` built from `getDenoisedPhaseImageAt(idx)`). -/
theorem c10_denoised_magnitudes_then_phases
    (fs : FS) (native : NativeLcpca) (image_list pl : List String)
    (ngb : ℕ) (stdev : ℚ) (mind : ℕ) (maxd : ℤ)
    (save_data overwrite : Bool) (output_dir file_name : Option String)
    (hc : (save_data && !overwrite
      && isfile fs (lcpcaOutFile image_list output_dir file_name "lcpca-dim")
      && isfile fs (lcpcaOutFile image_list output_dir file_name "lcpca-res")
      && (lcpcaDenFiles image_list (some pl) output_dir file_name).all (isfile fs)) = false)
    (hlen : pl.length = image_list.length)
    (hn : native.execFails = none) :
    ∃ r, (lcpca_denoising fs native image_list (some pl) ngb stdev mind maxd save_data overwrite output_dir file_name).outcome
        = Outcome.ok r
      ∧ r.denoised.length = image_list.length + pl.length
      ∧ (∀ idx, idx < image_list.length →
          (r.denoised.getD idx defaultImg).data
            = reshapeF (load_volume fs (image_list.headD "")).data.nx
                (load_volume fs (image_list.headD "")).data.ny
                (load_volume fs (image_list.headD "")).data.nz
                (native.denoisedMagnitudeAt idx))
      ∧ (∀ idx, idx < pl.length →
          (r.denoised.getD (image_list.length + idx) defaultImg).data
            = reshapeF (load_volume fs (image_list.headD "")).data.nx
                (load_volume fs (image_list.headD "")).data.ny
                (load_volume fs (image_list.headD "")).data.nz
                (native.denoisedPhaseAt idx)) := by
  simp [lcpca_denoising, niftiImage, hc, hlen, hn]
  constructor
  · intro idx hidx
    rw [List.getElem?_append_left (by simpa using hidx)]
    simp [hidx]
  · intro idx hidx
    rw [List.getElem?_append_right (by simp)]
    simp [hidx]

/-- Witness for C10 at a concrete call with two magnitude and two
phase images. -/
theorem c10_denoised_witness :
    (false && !false
      && isfile fsEx (lcpcaOutFile ["a","b"] none none "lcpca-dim")
      && isfile fsEx (lcpcaOutFile ["a","b"] none none "lcpca-res")
      && (lcpcaDenFiles ["a","b"] (some ["p1","p2"]) none none).all (isfile fsEx)) = false
    ∧ (["p1","p2"] : List String).length = (["a","b"] : List String).length
    ∧ nativeLcpcaEx.execFails = none
    ∧ ∃ r, (lcpca_denoising fsEx nativeLcpcaEx ["a","b"] (some ["p1","p2"]) 4 (105/100) 0 (-1) false false none none).outcome
        = Outcome.ok r
      ∧ r.denoised.length
        = (["a","b"] : List String).length + (["p1","p2"] : List String).length := by
  obtain ⟨r, h1, h2, -, -⟩ := c10_denoised_magnitudes_then_phases fsEx nativeLcpcaEx
    ["a","b"] ["p1","p2"] 4 (105/100) 0 (-1) false false none none
    (by decide) (by decide) (by decide)
  exact ⟨by decide, by decide, by decide, r, h1, h2⟩

end Nighres
